import Mathlib

/-!
Verification development for the Recursive AI Executor (`raie.py`).

The Python source is shallowly embedded below:

* `categorize_error` models `ErrorAnalyzer.categorize_error` (raie.py lines
  44-119): a pure classifier from a stderr string to a `Diagnostic` record.
  Python `in` substring tests become `strContains`, `str.lower()` becomes the
  ASCII lowering `pyLower`, and the three `re.search` calls become the
  dedicated leftmost-match scanners `findNoModule`, `findUndefName` and
  `findLineNumber`, each reproducing the concrete pattern's semantics.
* `build_learning_context` models `ErrorAnalyzer.build_learning_context`
  (lines 121-169), including the insertion-ordered grouping of failed
  attempts by category and the rendering of the repeated-pattern and
  improvement-strategy blocks.
* `execute_python_code` models `CodeExecutor.execute_python_code` (lines
  324-358).  The effectful steps (temp-file creation, writing the code,
  running the child process) are driven by an `ExecEnv` value recording the
  outcome of each step for the given input; the function returns both the
  Python-level return value (`none` would mean an exception escaped to the
  caller) and whether the temporary artifact is still on disk afterwards.
* `execute_recursive_ai` models the retry loop of `execute_recursive_ai`
  (lines 519-623) as a fold over the attempt budget, parameterized by the
  generation backend and the executor, producing the final loop state and
  the history entry recorded at lines 606-617.
-/

/-- Lean image of the `error_info` dict built by `categorize_error`
(raie.py lines 47-55).  Field order follows the Python dict literal. -/
structure Diagnostic where
  category : String
  specific_issue : String
  line_number : Option Nat
  missing_imports : List String
  syntax_issues : List String
  runtime_issues : List String
  suggestions : List String
deriving DecidableEq, Repr

/-- The initial `error_info` value (raie.py lines 47-55): category
`"unknown"`, everything else empty. -/
def defaultDiag : Diagnostic :=
  { category := "unknown"
    specific_issue := ""
    line_number := none
    missing_imports := []
    syntax_issues := []
    runtime_issues := []
    suggestions := [] }

/-- Boolean prefix test on character lists (used to implement Python's
substring and regex-literal matching). -/
def matchesAt : List Char → List Char → Bool
  | [], _ => true
  | _ :: _, [] => false
  | p :: ps, h :: hs => p == h && matchesAt ps hs

/-- Python's `pat in hay` substring test on character lists. -/
def containsSub : List Char → List Char → Bool
  | [], pat => pat.isEmpty
  | c :: t, pat => matchesAt pat (c :: t) || containsSub t pat

/-- Python's `pat in hay` substring test on strings. -/
def strContains (hay pat : String) : Bool :=
  containsSub hay.data pat.data

/-- Python's `str.lower()` restricted to ASCII (the recognized error
signatures are all ASCII). -/
def pyLower (s : String) : String :=
  String.mk (s.data.map Char.toLower)

/-- Python's `str.upper()` restricted to ASCII (applied to category names,
which are all ASCII). -/
def pyUpper (s : String) : String :=
  String.mk (s.data.map Char.toUpper)

/-- The apostrophe character, kept as a named constant. -/
def quoteChar : Char := Char.ofNat 39

/-- The apostrophe as a one-character string. -/
def quoteStr : String := String.mk [quoteChar]

/-- Maximal leading run of ASCII digits (the greedy `\d+` of the
`line (\d+)` regex). -/
def digitRun : List Char → List Char
  | [] => []
  | c :: t => if c.isDigit then c :: digitRun t else []

/-- Decimal value of a digit run, as computed by Python's `int()`. -/
def digitsToNat (ds : List Char) : Nat :=
  ds.foldl (fun a c => a * 10 + (c.toNat - 48)) 0

/-- The literal part of the `line (\d+)` pattern. -/
def linePat : List Char := "line ".data

/-- Model of `re.search(r"line (\d+)", stderr)` (raie.py line 115): leftmost
occurrence of `"line "` followed by at least one digit; group 1 is the
maximal digit run, converted by `int`. -/
def findLineNumber : List Char → Option Nat
  | [] => none
  | c :: t =>
    if matchesAt linePat (c :: t) then
      let ds := digitRun ((c :: t).drop linePat.length)
      if ds.isEmpty then findLineNumber t else some (digitsToNat ds)
    else findLineNumber t

/-- Maximal leading run of non-apostrophe characters (the greedy `[^']+`
of the module/name regexes). -/
def nonQuoteRun : List Char → List Char
  | [] => []
  | c :: t => if c == quoteChar then [] else c :: nonQuoteRun t

/-- The literal prefix of the `no module named '([^']+)'` pattern. -/
def noModulePat : List Char := "no module named ".data ++ [quoteChar]

/-- Model of `re.search(r"no module named '([^']+)'", stderr_lower)` (raie.py line
76): leftmost position where the literal prefix matches and is followed by
a non-empty quote-free run closed by an apostrophe; group 1 is that run. -/
def findNoModule : List Char → Option (List Char)
  | [] => none
  | c :: t =>
    if matchesAt noModulePat (c :: t) then
      let rest := (c :: t).drop noModulePat.length
      let run := nonQuoteRun rest
      if run.isEmpty then findNoModule t
      else if (rest.drop run.length).head? == some quoteChar then some run
      else findNoModule t
    else findNoModule t

/-- The literal prefix of the `name '([^']+)' is not defined` pattern. -/
def namePat : List Char := "name ".data ++ [quoteChar]

/-- The literal tail of the `name '([^']+)' is not defined` pattern. -/
def nameTailPat : List Char := quoteChar :: " is not defined".data

/-- Model of `re.search(r"name '([^']+)' is not defined", stderr_lower)` (raie.py
line 85): leftmost position where the prefix matches, the greedy quote-free
run is non-empty, and the closing `' is not defined` literal follows. -/
def findUndefName : List Char → Option (List Char)
  | [] => none
  | c :: t =>
    if matchesAt namePat (c :: t) then
      let rest := (c :: t).drop namePat.length
      let run := nonQuoteRun rest
      if run.isEmpty then findUndefName t
      else if matchesAt nameTailPat (rest.drop run.length) then some run
      else findUndefName t
    else findUndefName t

/-- The if/elif signature chain of `categorize_error` (raie.py lines
60-112), applied to the lowered stderr.  Each branch mirrors one Python
branch, including the per-branch extraction and the single suggestion it
may append. -/
def categorizeBase (low : String) : Diagnostic :=
  if strContains low "syntaxerror" then
    if strContains low "invalid syntax" then
      { defaultDiag with
        category := "syntax"
        specific_issue := "invalid_syntax"
        suggestions := ["Check parentheses, brackets, and indentation"] }
    else if strContains low "unexpected eof" then
      { defaultDiag with
        category := "syntax"
        specific_issue := "unexpected_eof"
        suggestions := ["Missing closing brackets or incomplete statements"] }
    else
      { defaultDiag with category := "syntax" }
  else if strContains low "modulenotfounderror" || strContains low "importerror" then
    match findNoModule low.data with
    | some m =>
      { defaultDiag with
        category := "import"
        missing_imports := [String.mk m]
        suggestions :=
          ["Add import for " ++ String.mk m ++ " or use standard library alternative"] }
    | none => { defaultDiag with category := "import" }
  else if strContains low "nameerror" then
    match findUndefName low.data with
    | some n =>
      { defaultDiag with
        category := "name"
        specific_issue := "undefined_variable: " ++ String.mk n
        suggestions :=
          ["Define variable " ++ quoteStr ++ String.mk n ++ quoteStr ++ " before using it"] }
    | none => { defaultDiag with category := "name" }
  else if strContains low "typeerror" then
    if strContains low "takes" && strContains low "positional argument" then
      { defaultDiag with
        category := "type"
        specific_issue := "wrong_arguments"
        suggestions := ["Check function arguments and their count"] }
    else if strContains low "unsupported operand" then
      { defaultDiag with
        category := "type"
        specific_issue := "incompatible_types"
        suggestions := ["Check data types in operations"] }
    else
      { defaultDiag with category := "type" }
  else if strContains low "indexerror" then
    { defaultDiag with
      category := "index"
      suggestions := ["Check list/array bounds before accessing"] }
  else if strContains low "keyerror" then
    { defaultDiag with
      category := "key"
      suggestions := ["Check if dictionary key exists before accessing"] }
  else if strContains low "indentationerror" then
    { defaultDiag with
      category := "indentation"
      suggestions := ["Fix indentation - use consistent spaces or tabs"] }
  else
    defaultDiag

/-- Model of `ErrorAnalyzer.categorize_error` (raie.py lines 44-119).  Empty stderr
returns the default record untouched (line 57-58); otherwise the signature
chain runs on the lowered text and the trailing `line (\d+)` scan runs on
the original text regardless of category (lines 114-117). -/
def categorize_error (stderr : String) : Diagnostic :=
  if stderr = "" then defaultDiag
  else
    { categorizeBase (pyLower stderr) with
      line_number := findLineNumber stderr.data }

/-- Disjunction of all recognized signature substrings, case-insensitively
(the eight trigger substrings of the spec's signature table). -/
def sigAny (stderr : String) : Bool :=
  strContains (pyLower stderr) "syntaxerror" ||
  strContains (pyLower stderr) "modulenotfounderror" ||
  strContains (pyLower stderr) "importerror" ||
  strContains (pyLower stderr) "nameerror" ||
  strContains (pyLower stderr) "typeerror" ||
  strContains (pyLower stderr) "indexerror" ||
  strContains (pyLower stderr) "keyerror" ||
  strContains (pyLower stderr) "indentationerror"

/-- Category assignment written directly from the spec's ordered signature
table (spec section 4.1): the first matching signature in the fixed order
syntax, import, name, type, index, key, indentation determines the
category; otherwise `unknown`.  This is the spec-side definition used to
state the first-match-wins refinement claim against `categorize_error`. -/
def specFirstMatchCategory (stderr : String) : String :=
  if strContains (pyLower stderr) "syntaxerror" then "syntax"
  else if strContains (pyLower stderr) "modulenotfounderror" ||
          strContains (pyLower stderr) "importerror" then "import"
  else if strContains (pyLower stderr) "nameerror" then "name"
  else if strContains (pyLower stderr) "typeerror" then "type"
  else if strContains (pyLower stderr) "indexerror" then "index"
  else if strContains (pyLower stderr) "keyerror" then "key"
  else if strContains (pyLower stderr) "indentationerror" then "indentation"
  else "unknown"

/-- The fields of an attempt record that `build_learning_context` reads:
`attempt.get('success')` and `attempt.get('stderr', '')` (raie.py lines
134-137). -/
structure AttemptRec where
  success : Bool
  stderr : String
deriving DecidableEq, Repr

/-- One entry of an `error_patterns` bucket (raie.py lines 141-145). -/
structure ErrEntry where
  attempt : Nat
  issue : String
  suggestions : List String
deriving DecidableEq, Repr

/-- Append an entry to the bucket of `cat` in the insertion-ordered
association list modelling the Python `error_patterns` dict (raie.py lines
139-145): a new key goes to the end, an existing key keeps its place. -/
def addPattern (pats : List (String × List ErrEntry)) (cat : String)
    (e : ErrEntry) : List (String × List ErrEntry) :=
  match pats with
  | [] => [(cat, [e])]
  | (c, es) :: rest =>
    if c = cat then (c, es ++ [e]) :: rest
    else (c, es) :: addPattern rest cat e

/-- The grouping loop of `build_learning_context` (raie.py lines 133-145):
failed attempts are classified and bucketed by category under their 1-based
attempt number; successful attempts contribute nothing to the buckets. -/
def collectPatterns : List AttemptRec → Nat →
    List (String × List ErrEntry) → List (String × List ErrEntry)
  | [], _, acc => acc
  | a :: rest, i, acc =>
    if a.success then collectPatterns rest (i + 1) acc
    else
      let info := categorize_error a.stderr
      collectPatterns rest (i + 1)
        (addPattern acc info.category ⟨i + 1, info.specific_issue, info.suggestions⟩)

/-- Python's `errors[-2:]`. -/
def lastTwo (l : List ErrEntry) : List ErrEntry :=
  l.drop (l.length - 2)

/-- Rendering of one bucket entry (raie.py lines 154-156). -/
def renderEntry (e : ErrEntry) : String :=
  "  * Attempt " ++ toString e.attempt ++ ": " ++ e.issue ++ "\n" ++
  String.join (e.suggestions.map (fun s => "    - " ++ s ++ "\n"))

/-- Rendering of one category bucket (raie.py lines 150-156): only buckets
with more than one occurrence produce text, showing the count and the last
two entries. -/
def renderPattern (p : String × List ErrEntry) : String :=
  if p.2.length > 1 then
    "- " ++ pyUpper p.1 ++ " errors occurred " ++ toString p.2.length ++
    " times\n" ++ String.join ((lastTwo p.2).map renderEntry)
  else ""

/-- The repeated-patterns block (raie.py lines 148-156): emitted whenever
the `error_patterns` dict is non-empty, header included even if no bucket
has more than one occurrence. -/
def patternsBlock (pats : List (String × List ErrEntry)) : String :=
  if pats.isEmpty then ""
  else "\nREPEATED ERROR PATTERNS DETECTED:\n" ++
    String.join (pats.map renderPattern)

/-- Python's `cat in error_patterns` dict-key membership test. -/
def hasCat (pats : List (String × List ErrEntry)) (cat : String) : Bool :=
  pats.any (fun p => p.1 = cat)

/-- The header literal opening every non-empty learning context (raie.py
line 127). -/
def learnHeader : String := "\n=== LEARNING FROM PREVIOUS ATTEMPTS ===\n"

/-- The improvement-strategies header literal (raie.py line 159). -/
def improveHeader : String := "\nIMPROVEMENT STRATEGIES:\n"

/-- The category-triggered strategy hints (raie.py lines 160-167): one
fixed hint per category key present in the dict. -/
def strategyHints (pats : List (String × List ErrEntry)) : String :=
  (if hasCat pats "import" then
    "- Use only standard library imports (avoid external packages)\n" else "") ++
  (if hasCat pats "syntax" then
    "- Double-check syntax, especially brackets and indentation\n" else "") ++
  (if hasCat pats "name" then
    "- Ensure all variables are defined before use\n" else "") ++
  (if hasCat pats "type" then
    "- Add type checking and validation\n" else "")

/-- The improvement-strategies block (raie.py lines 158-167): the header
is always emitted, followed by the triggered hints. -/
def strategiesBlock (pats : List (String × List ErrEntry)) : String :=
  improveHeader ++ strategyHints pats

/-- Model of `ErrorAnalyzer.build_learning_context` (raie.py lines 121-169).  The
`successful_patterns` list built at lines 134-135 is omitted: it is only
appended to and never read, so it cannot affect the returned text. -/
def build_learning_context (all_attempts : List AttemptRec) : String :=
  if all_attempts.isEmpty then ""
  else
    let pats := collectPatterns all_attempts 0 []
    learnHeader ++ patternsBlock pats ++ strategiesBlock pats

/-- Outcome of `tempfile.NamedTemporaryFile(...)` (raie.py line 329): on
success the artifact now exists on disk; on an exception nothing was
created. -/
inductive CreateOutcome where
  | ok
  | exn (msg : String)
deriving DecidableEq, Repr

/-- Outcome of `f.write(code)` (raie.py line 330): the write can raise
after the artifact exists, e.g. `UnicodeEncodeError` when the input string
cannot be encoded by the text-mode writer. -/
inductive WriteOutcome where
  | ok
  | exn (msg : String)
deriving DecidableEq, Repr

/-- Outcome of `subprocess.run(...)` (raie.py lines 334-340): normal
completion with an exit status and captured streams, `TimeoutExpired`
(which still carries whatever partial output the child produced), or any
other exception during launch or execution.  The `childRemoved` flag
records whether the child process deleted the temporary artifact while it
ran (generated code can delete its own script file); the `exnDuring` case
is a launch failure, in which the child never ran and the artifact is
intact. -/
inductive RunOutcome where
  | completed (returncode : Int) (stdout stderr : String) (childRemoved : Bool)
  | timedOut (partialOut partialErr : String) (childRemoved : Bool)
  | exnDuring (msg : String)
deriving DecidableEq, Repr

/-- Whether the child process deleted the temporary artifact during its
run. -/
def childRemovedArtifact : RunOutcome → Bool
  | RunOutcome.completed _ _ _ b => b
  | RunOutcome.timedOut _ _ b => b
  | RunOutcome.exnDuring _ => false

/-- Environment of one `execute_python_code` call: the outcome of each
effectful step for the given input code string.  The code string itself
only influences these outcomes (an unencodable string forces `writeCode`
to fail, an ever-looping program forces `runProc` to time out), so it is
represented through them. -/
structure ExecEnv where
  createTemp : CreateOutcome
  writeCode : WriteOutcome
  runProc : RunOutcome
deriving DecidableEq, Repr

/-- Result of one `execute_python_code` call: the Python return value
(`none` would mean an exception escaped to the caller) together with
whether the temporary artifact still exists on disk afterwards. -/
structure ExecResult where
  returned : Option (Bool × String × String)
  fileExists : Bool
deriving DecidableEq, Repr

/-- The fixed timeout message (raie.py line 354). -/
def timeoutMsg : String := "Code execution timed out (>15 seconds)"

/-- Model of `CodeExecutor.execute_python_code` (raie.py lines 324-358).  Branches,
in source order: a creation failure is caught by `except Exception` with no
artifact on disk; a write failure is caught by the same handler, but since
`temp_file` is only assigned after the write (line 331) the handler's
`'temp_file' in locals()` guard (line 356) skips the `os.unlink`, leaving
the created artifact on disk; on normal completion the artifact is removed
(line 343) and `succeeded` is `returncode == 0` (line 345), with the
captured streams returned as-is (lines 346-347 map empty to empty);
`TimeoutExpired` discards the child's partial output and returns the fixed
message after removing the artifact (lines 351-354); any other exception
during launch or execution removes the artifact and returns the failure
text (lines 355-358).  `os.unlink` is modelled faithfully in terms of the
artifact's presence: it succeeds exactly when the artifact still exists and
raises `FileNotFoundError` when the child already deleted it.  So when the
child removed the artifact and then completed, the unlink at line 343
raises, `except Exception` catches it, and the handler's re-unlink at line
357 raises again — an exception raised inside an except block propagates,
hence `returned = none`; when the child removed the artifact and then timed
out, the `TimeoutExpired` handler's unlink at line 353 raises and
propagates, since the sibling `except Exception` clause does not catch
exceptions raised inside another handler of the same try. -/
def execute_python_code (env : ExecEnv) : ExecResult :=
  match env.createTemp with
  | CreateOutcome.exn m =>
    { returned := some (false, "", "Execution error: " ++ m), fileExists := false }
  | CreateOutcome.ok =>
    match env.writeCode with
    | WriteOutcome.exn m =>
      { returned := some (false, "", "Execution error: " ++ m), fileExists := true }
    | WriteOutcome.ok =>
      match env.runProc with
      | RunOutcome.completed rc out err childRemoved =>
        if childRemoved then
          { returned := none, fileExists := false }
        else
          { returned := some (decide (rc = 0), out, err), fileExists := false }
      | RunOutcome.timedOut _ _ childRemoved =>
        if childRemoved then
          { returned := none, fileExists := false }
        else
          { returned := some (false, "", timeoutMsg), fileExists := false }
      | RunOutcome.exnDuring m =>
        { returned := some (false, "", "Execution error: " ++ m), fileExists := false }

/-- One attempt record as built by the loop (raie.py lines 573-581); the
wall-clock `timestamp` field is not modelled. -/
structure AttemptFull where
  attempt : Nat
  success : Bool
  stdout : String
  stderr : String
  code : String
  error_analysis : Option Diagnostic
deriving DecidableEq, Repr

/-- The mutable state the loop in `execute_recursive_ai` works on: the
local `all_attempts` list, the session-state `execution_logs` list (reset
at run start, line 525), `current_attempt`, the last generated code, the
`success` flag and whether a generation failure broke the loop.
`execCount` counts the calls made to the sandbox executor. -/
structure RunState where
  allAttempts : List AttemptFull
  executionLogs : List AttemptFull
  currentAttempt : Nat
  generatedCode : String
  success : Bool
  genFailed : Bool
  execCount : Nat
deriving Repr

/-- Parameters of one run: the attempt budget, the generation backend
(`ai_client.generate_code`, returning `none` for the Python `None`), the
executor, and the session-state `generated_code` value carried over from
before the run (it is only overwritten when generation succeeds). -/
structure RunConfig where
  maxAttempts : Nat
  gen : Nat → List AttemptFull → Option String
  ex : String → Bool × String × String
  initialGenerated : String

/-- The attempt record of raie.py lines 573-581: `error_analysis` is a
`Diagnostic` exactly when `stderr` is non-empty (line 570). -/
def mkAttemptRecord (n : Nat) (code : String) (r : Bool × String × String) :
    AttemptFull :=
  { attempt := n
    success := r.1
    stdout := r.2.1
    stderr := r.2.2
    code := code
    error_analysis := if r.2.2 = "" then none else some (categorize_error r.2.2) }

/-- State update of one executed attempt (raie.py lines 562-584): the
generated code is stored, the record is appended to both `all_attempts` and
`execution_logs`, and the `success` flag takes the executor's value. -/
def stepState (cfg : RunConfig) (idx : Nat) (st : RunState) (code : String) :
    RunState :=
  { st with
    currentAttempt := idx + 1
    generatedCode := code
    allAttempts := st.allAttempts ++ [mkAttemptRecord (idx + 1) code (cfg.ex code)]
    executionLogs := st.executionLogs ++ [mkAttemptRecord (idx + 1) code (cfg.ex code)]
    success := (cfg.ex code).1
    execCount := st.execCount + 1 }

/-- The `for attempt in range(max_attempts)` loop of `execute_recursive_ai`
(raie.py lines 538-595), as recursion on the remaining budget with `idx`
the 0-based Python loop variable.  Per iteration: `current_attempt` is set
to `idx + 1` (line 539); the backend is called with the attempt number and
the full prior history (lines 552-556); a `None` or empty result breaks the
loop (lines 558-560); otherwise the code is executed and recorded, and the
loop breaks on success (lines 586-588) or continues. -/
def loopFrom (cfg : RunConfig) : Nat → Nat → RunState → RunState
  | 0, _, st => st
  | Nat.succ rem, idx, st =>
    match cfg.gen (idx + 1) st.allAttempts with
    | none => { st with currentAttempt := idx + 1, genFailed := true }
    | some code =>
      if code = "" then { st with currentAttempt := idx + 1, genFailed := true }
      else if (cfg.ex code).1 then stepState cfg idx st code
      else loopFrom cfg rem (idx + 1) (stepState cfg idx st code)

/-- State at run start (raie.py lines 523-536): counters zeroed, both
record lists empty, `success = False`. -/
def initRunState (cfg : RunConfig) : RunState :=
  { allAttempts := []
    executionLogs := []
    currentAttempt := 0
    generatedCode := cfg.initialGenerated
    success := false
    genFailed := false
    execCount := 0 }

/-- The whole attempt loop of one run. -/
def runLoop (cfg : RunConfig) : RunState :=
  loopFrom cfg cfg.maxAttempts 0 (initRunState cfg)

/-- Terminal states of the spec's RetryController state machine. -/
inductive Outcome where
  | Succeeded
  | Exhausted
  | GenerationFailed
deriving DecidableEq, Repr

/-- Terminal state reached by a run: a generation failure broke the loop
(raie.py lines 558-560), else the `success` flag decides between the
success path and budget exhaustion (lines 601-604). -/
def outcomeOf (st : RunState) : Outcome :=
  if st.genFailed then Outcome.GenerationFailed
  else if st.success then Outcome.Succeeded
  else Outcome.Exhausted

/-- The history entry recorded at run end (raie.py lines 606-617); the
`prompt` and `timestamp` fields are not modelled. -/
structure HistoryEntry where
  generated_code : String
  attempts : Nat
  success : Bool
  logs : List AttemptFull
  learning_applied : Bool
deriving Repr

/-- Construction of the history entry (raie.py lines 606-615):
`attempts := current_attempt`, `logs` is the copy of `execution_logs`, and
`learning_applied := len(all_attempts) > 1`. -/
def historyEntryOf (st : RunState) : HistoryEntry :=
  { generated_code := st.generatedCode
    attempts := st.currentAttempt
    success := st.success
    logs := st.executionLogs
    learning_applied := decide (st.allAttempts.length > 1) }

/-- Model of `execute_recursive_ai` (raie.py lines 519-623): the final loop state
together with the history entry appended to `execution_history`. -/
def execute_recursive_ai (cfg : RunConfig) : RunState × HistoryEntry :=
  (runLoop cfg, historyEntryOf (runLoop cfg))

/-- Claim C1 (refuted at the write-failure path): when the artifact has
been created but `f.write(code)` raises — which happens on a real input,
e.g. a code string containing a lone surrogate that the text-mode writer
cannot encode — `execute_python_code` returns its error tuple, yet the
temporary `.py` artifact is still on disk, because `temp_file` is bound
only after the write and the exception handlers' `'temp_file' in locals()`
guard therefore skips the `os.unlink`. -/
theorem c1_artifact_leak_on_write_failure :
    (execute_python_code
      ⟨CreateOutcome.ok, WriteOutcome.exn "surrogates not allowed",
        RunOutcome.completed 0 "" "" false⟩).fileExists = true ∧
    (execute_python_code
      ⟨CreateOutcome.ok, WriteOutcome.exn "surrogates not allowed",
        RunOutcome.completed 0 "" "" false⟩).returned =
      some (false, "", "Execution error: surrogates not allowed") := by
  constructor
  · rfl
  · decide

/-- On every path other than a write failure — creation failure, normal
completion with any exit status, timeout, or an exception during launch or
execution — no temporary artifact of the call remains on disk: either the
function unlinked it or the child itself had already deleted it. -/
theorem cleanup_outside_write_failure (env : ExecEnv)
    (h : ∀ m, env.writeCode ≠ WriteOutcome.exn m) :
    (execute_python_code env).fileExists = false := by
  obtain ⟨c, w, r⟩ := env
  cases c <;> cases w <;> cases r <;>
    try (rename_i b; cases b) <;>
    simp_all [execute_python_code]

/-- Claim C5 (refuted at the cleanup-failure path): when the generated
program deletes its own artifact and then runs to completion, the unlink
at raie.py line 343 raises `FileNotFoundError`, the `except Exception`
handler re-unlinks at line 357, which raises again inside the handler, and
the exception propagates to the caller instead of being converted into a
three-tuple. -/
theorem c5_counterexample_cleanup_failure_propagates :
    (execute_python_code
      ⟨CreateOutcome.ok, WriteOutcome.ok,
        RunOutcome.completed 0 "" "" true⟩).returned = none := rfl

/-- Claim C5 (amended): `execute_python_code` propagates an exception
exactly when a cleanup unlink finds the artifact already removed by the
child; on every other path — creation failure, write failure, launch or
execution failure — the failure is converted into a returned three-tuple
with `succeeded = false` and the failure text in stderr. -/
theorem c5_propagation_only_on_cleanup_failure (env : ExecEnv) :
    (childRemovedArtifact env.runProc = false →
      (execute_python_code env).returned ≠ none) ∧
    ((execute_python_code env).returned = none →
      env.createTemp = CreateOutcome.ok ∧ env.writeCode = WriteOutcome.ok ∧
      childRemovedArtifact env.runProc = true) ∧
    (∀ m, env.createTemp = CreateOutcome.exn m →
      (execute_python_code env).returned =
        some (false, "", "Execution error: " ++ m)) ∧
    (∀ m, env.createTemp = CreateOutcome.ok →
      env.writeCode = WriteOutcome.exn m →
      (execute_python_code env).returned =
        some (false, "", "Execution error: " ++ m)) ∧
    (∀ m, env.createTemp = CreateOutcome.ok →
      env.writeCode = WriteOutcome.ok →
      env.runProc = RunOutcome.exnDuring m →
      (execute_python_code env).returned =
        some (false, "", "Execution error: " ++ m)) := by
  obtain ⟨c, w, r⟩ := env
  cases c <;> cases w <;> cases r <;>
    try (rename_i b; cases b) <;>
    simp_all [execute_python_code, childRemovedArtifact]

/-- Witness for claim C5 (amended) at a concrete launch failure, which is
converted into the tuple rather than propagated. -/
theorem c5_propagation_only_on_cleanup_failure_witness :
    (execute_python_code
      ⟨CreateOutcome.ok, WriteOutcome.ok,
        RunOutcome.exnDuring "python interpreter not found"⟩).returned =
      some (false, "", "Execution error: python interpreter not found") :=
  (c5_propagation_only_on_cleanup_failure _).2.2.2.2 "python interpreter not found"
    rfl rfl rfl

/-- Claim C6 (refuted at the cleanup-failure path): a child that deletes
its own artifact and then exceeds the timeout makes the `TimeoutExpired`
handler's unlink at raie.py line 353 raise and propagate, so the fixed
timeout tuple is not returned on every timeout. -/
theorem c6_counterexample_timeout_cleanup_propagates :
    (execute_python_code
      ⟨CreateOutcome.ok, WriteOutcome.ok,
        RunOutcome.timedOut "partial out" "" true⟩).returned = none := rfl

/-- Claim C6 (amended): whenever the child exceeds the timeout without
having deleted the artifact, the run returns `succeeded = false`, empty
stdout and the fixed timeout message, whatever partial output the child
had produced; if the timed-out child did delete the artifact, the
handler's unlink raises and the exception propagates instead. -/
theorem c6_timeout_fixed_message_amended (env : ExecEnv) (po pe : String)
    (h1 : env.createTemp = CreateOutcome.ok)
    (h2 : env.writeCode = WriteOutcome.ok)
    (h3 : env.runProc = RunOutcome.timedOut po pe false) :
    (execute_python_code env).returned = some (false, "", timeoutMsg) := by
  obtain ⟨c, w, r⟩ := env
  simp only at h1 h2 h3
  subst h1; subst h2; subst h3
  rfl

/-- Witness for claim C6 (amended): a child that produced partial output
and left the artifact in place yields empty stdout and the fixed
message. -/
theorem c6_timeout_fixed_message_amended_witness :
    (execute_python_code
      ⟨CreateOutcome.ok, WriteOutcome.ok,
        RunOutcome.timedOut "partial out" "partial err" false⟩).returned =
      some (false, "", timeoutMsg) :=
  c6_timeout_fixed_message_amended _ "partial out" "partial err" rfl rfl rfl

/-- Associativity of string append, via the underlying character lists. -/
theorem strAppendAssoc (a b c : String) : (a ++ b) ++ c = a ++ (b ++ c) :=
  congrArg String.mk (List.append_assoc a.data b.data c.data)

/-- The character list of an appended string. -/
theorem strAppendData (a b : String) : (a ++ b).data = a.data ++ b.data := rfl

/-- The signature chain yields category `unknown` exactly when none of the
eight trigger substrings occurs in the lowered text. -/
theorem categorizeBase_unknown_iff (low : String) :
    ((categorizeBase low).category = "unknown" ↔
      (strContains low "syntaxerror" || strContains low "modulenotfounderror" ||
       strContains low "importerror" || strContains low "nameerror" ||
       strContains low "typeerror" || strContains low "indexerror" ||
       strContains low "keyerror" || strContains low "indentationerror") = false) := by
  unfold categorizeBase
  repeat' split
  all_goals simp_all [defaultDiag]
  all_goals (intros; rcases ‹_ ∨ _› with h | h <;> simp_all)

/-- When the signature chain leaves the category at `unknown`, it leaves
the whole record at its default value. -/
theorem categorizeBase_default_of_unknown (low : String)
    (h : (categorizeBase low).category = "unknown") :
    categorizeBase low = defaultDiag := by
  unfold categorizeBase at *
  repeat' split at h
  all_goals simp_all [defaultDiag]

/-- On non-empty stderr, `categorize_error` is the signature chain on the
lowered text plus the category-independent line-number scan. -/
theorem categorize_error_eq (s : String) (hs : s ≠ "") :
    categorize_error s =
      { categorizeBase (pyLower s) with line_number := findLineNumber s.data } := by
  unfold categorize_error
  rw [if_neg hs]

/-- Claim C2 (refuted as stated): on stderr matching no recognized
signature but containing a `line N` pattern, the category is `unknown`
while `line_number` is nevertheless set — the trailing line scan runs
regardless of category, so not every other field stays at its default. -/
theorem c2_counterexample_line_number_set_when_unknown :
    (categorize_error "error at line 7").category = "unknown" ∧
    (categorize_error "error at line 7").line_number ≠ none := by decide

/-- Claim C2 (amended): the category is `unknown` exactly when none of the
recognized signature substrings occurs case-insensitively, and in that case
`specific_issue`, `missing_imports` and `suggestions` stay at their
empty defaults; `line_number` is exempt, being set by the
category-independent trailing scan. -/
theorem c2_unknown_iff_no_signature_amended (s : String) :
    ((categorize_error s).category = "unknown" ↔ sigAny s = false) ∧
    ((categorize_error s).category = "unknown" →
      (categorize_error s).specific_issue = "" ∧
      (categorize_error s).missing_imports = [] ∧
      (categorize_error s).suggestions = []) := by
  by_cases hs : s = ""
  · subst hs
    exact ⟨by decide, by decide⟩
  · rw [categorize_error_eq s hs]
    constructor
    · show (categorizeBase (pyLower s)).category = "unknown" ↔ sigAny s = false
      rw [categorizeBase_unknown_iff]
      unfold sigAny
      exact Iff.rfl
    · intro h
      have hd := categorizeBase_default_of_unknown (pyLower s) h
      rw [hd]
      exact ⟨rfl, rfl, rfl⟩

/-- Witness for claim C2 (amended) at a signature-free input. -/
theorem c2_unknown_iff_no_signature_amended_witness :
    (categorize_error "mystery failure").specific_issue = "" ∧
    (categorize_error "mystery failure").missing_imports = [] ∧
    (categorize_error "mystery failure").suggestions = [] :=
  (c2_unknown_iff_no_signature_amended "mystery failure").2 (by decide)

/-- Claim C7: the category is the first matching signature in the fixed
order syntax, import, name, type, index, key, indentation (compared
against the spec-side first-match definition), and only the matched
branch's extraction runs: module names can only be recorded by the import
branch, and a specific issue only by the syntax, name or type branches. -/
theorem c7_first_match_category (s : String) :
    (categorize_error s).category = specFirstMatchCategory s ∧
    ((categorize_error s).missing_imports ≠ [] →
      (categorize_error s).category = "import") ∧
    ((categorize_error s).specific_issue ≠ "" →
      (categorize_error s).category = "syntax" ∨
      (categorize_error s).category = "name" ∨
      (categorize_error s).category = "type") := by
  by_cases hs : s = ""
  · subst hs
    exact ⟨by decide, by decide, by decide⟩
  · rw [categorize_error_eq s hs]
    show (categorizeBase (pyLower s)).category = specFirstMatchCategory s ∧ _
    unfold categorizeBase specFirstMatchCategory
    repeat' split
    all_goals simp_all [defaultDiag]

/-- Witness for claim C7: stderr matching both the key and index
signatures is categorized as `index` (first in the listed order), and
an import failure with an extractable module is categorized as
`import`. -/
theorem c7_first_match_category_witness :
    (categorize_error "KeyError and IndexError").category = "index" ∧
    (categorize_error
      ("ImportError: no module named " ++ quoteStr ++ "numpy" ++ quoteStr)).category =
      "import" :=
  ⟨(c7_first_match_category "KeyError and IndexError").1.trans (by decide),
   (c7_first_match_category _).2.1 (by decide)⟩

/-- Claim C8 (refuted as stated): stderr matching the syntax signature
without either sub-case appends no suggestion at all, so a matched
signature does not always append exactly one suggestion. -/
theorem c8_counterexample_syntax_without_suggestion :
    (categorize_error "SyntaxError").category = "syntax" ∧
    (categorize_error "SyntaxError").suggestions = [] := by decide

/-- Claim C8 (amended): a call appends at most one suggestion; the index,
key and indentation signatures always append exactly one, and each of the
syntax, import, name and type branches appends exactly one when its
sub-case or extraction also matches and none otherwise. -/
theorem c8_at_most_one_suggestion_amended (s : String) :
    (categorize_error s).suggestions.length ≤ 1 ∧
    (((categorize_error s).category = "index" ∨
      (categorize_error s).category = "key" ∨
      (categorize_error s).category = "indentation") →
      (categorize_error s).suggestions.length = 1) ∧
    ((categorize_error s).category = "syntax" →
      ((categorize_error s).suggestions.length = 1 ↔
        (strContains (pyLower s) "invalid syntax" ||
         strContains (pyLower s) "unexpected eof") = true)) ∧
    ((categorize_error s).category = "import" →
      ((categorize_error s).suggestions.length = 1 ↔
        findNoModule (pyLower s).data ≠ none)) ∧
    ((categorize_error s).category = "name" →
      ((categorize_error s).suggestions.length = 1 ↔
        findUndefName (pyLower s).data ≠ none)) ∧
    ((categorize_error s).category = "type" →
      ((categorize_error s).suggestions.length = 1 ↔
        (strContains (pyLower s) "takes" &&
         strContains (pyLower s) "positional argument" ||
         strContains (pyLower s) "unsupported operand") = true)) := by
  by_cases hs : s = ""
  · subst hs
    exact ⟨by decide, by decide, by decide, by decide, by decide, by decide⟩
  · rw [categorize_error_eq s hs]
    show (categorizeBase (pyLower s)).suggestions.length ≤ 1 ∧ _
    unfold categorizeBase
    repeat' split
    all_goals simp_all [defaultDiag]

/-- Witness for claim C8 (amended): the index signature appends exactly
one suggestion, and the syntax branch appends exactly one when its
invalid-syntax sub-case matches. -/
theorem c8_at_most_one_suggestion_amended_witness :
    (categorize_error "IndexError: list index out of range").suggestions.length = 1 ∧
    (categorize_error "SyntaxError: invalid syntax").suggestions.length = 1 :=
  ⟨(c8_at_most_one_suggestion_amended _).2.1 (Or.inl (by decide)),
   ((c8_at_most_one_suggestion_amended _).2.2.1 (by decide)).mpr (by decide)⟩

/-- Claim C4 (refuted as stated): stderr containing `no module named 'foo'`
but neither `modulenotfounderror` nor `importerror` is categorized as
`unknown` with empty `missing_imports` — the module extraction only runs
inside the import branch. -/
theorem c4_counterexample_no_module_without_import_signature :
    (categorize_error
      ("no module named " ++ quoteStr ++ "foo" ++ quoteStr)).category = "unknown" ∧
    (categorize_error
      ("no module named " ++ quoteStr ++ "foo" ++ quoteStr)).missing_imports = [] := by
  decide

/-- Claim C4 (amended): when the lowered stderr contains
`modulenotfounderror` or `importerror` but not `syntaxerror`, and the
`no module named 'X'` pattern matches with first group `X`, the category is
`import` and `X` is in `missing_imports`. -/
theorem c4_import_module_extraction_amended (s : String) (x : List Char)
    (h1 : strContains (pyLower s) "syntaxerror" = false)
    (h2 : (strContains (pyLower s) "modulenotfounderror" ||
           strContains (pyLower s) "importerror") = true)
    (h3 : findNoModule (pyLower s).data = some x) :
    (categorize_error s).category = "import" ∧
    String.mk x ∈ (categorize_error s).missing_imports := by
  have hs : s ≠ "" := by
    intro he
    subst he
    exact absurd h2 (by decide)
  rw [categorize_error_eq s hs]
  simp [categorizeBase, h1, h2, h3]

/-- Witness for claim C4 (amended) at a real module-not-found message. -/
theorem c4_import_module_extraction_amended_witness :
    (categorize_error
      ("ModuleNotFoundError: No module named " ++ quoteStr ++ "requests" ++ quoteStr)).category =
      "import" ∧
    String.mk "requests".data ∈
      (categorize_error
        ("ModuleNotFoundError: No module named " ++ quoteStr ++ "requests" ++ quoteStr)).missing_imports :=
  c4_import_module_extraction_amended _ _ (by decide) (by decide) (by decide)

/-- A generation failure (backend yields `None` or an empty string) breaks
the loop at the current attempt with the state otherwise unchanged. -/
theorem loopFrom_genFail (cfg : RunConfig) (rem idx : Nat) (st : RunState)
    (h : cfg.gen (idx + 1) st.allAttempts = none ∨
         cfg.gen (idx + 1) st.allAttempts = some "") :
    loopFrom cfg (rem + 1) idx st =
      { st with currentAttempt := idx + 1, genFailed := true } := by
  unfold loopFrom
  rcases h with h | h
  · rw [h]
  · rw [h]
    simp

/-- Claim C3: if the backend yields no usable program text on attempt 1,
the run ends in the `GenerationFailed` outcome at attempt 1 without any
sandbox execution, and the recorded history entry carries zero attempt
records (zero completed executions) and `learning_applied = false`. -/
theorem c3_generation_failed_no_execution (cfg : RunConfig)
    (h1 : 1 ≤ cfg.maxAttempts)
    (h2 : cfg.gen 1 [] = none ∨ cfg.gen 1 [] = some "") :
    outcomeOf (execute_recursive_ai cfg).1 = Outcome.GenerationFailed ∧
    (execute_recursive_ai cfg).1.execCount = 0 ∧
    (execute_recursive_ai cfg).2.logs = [] ∧
    (execute_recursive_ai cfg).2.learning_applied = false ∧
    (execute_recursive_ai cfg).1.currentAttempt = 1 := by
  obtain ⟨rem, hrem⟩ : ∃ rem, cfg.maxAttempts = rem + 1 :=
    ⟨cfg.maxAttempts - 1, by omega⟩
  have hrun : runLoop cfg =
      { initRunState cfg with currentAttempt := 0 + 1, genFailed := true } := by
    unfold runLoop
    rw [hrem]
    exact loopFrom_genFail cfg rem 0 (initRunState cfg) h2
  unfold execute_recursive_ai
  rw [hrun]
  exact ⟨rfl, rfl, rfl, rfl, rfl⟩

/-- Witness for claim C3: a backend that always returns `None` under a
budget of 3 attempts. -/
theorem c3_generation_failed_no_execution_witness :
    outcomeOf (execute_recursive_ai
      ⟨3, fun _ _ => none, fun _ => (false, "", ""), ""⟩).1 =
      Outcome.GenerationFailed ∧
    (execute_recursive_ai
      ⟨3, fun _ _ => none, fun _ => (false, "", ""), ""⟩).1.execCount = 0 ∧
    (execute_recursive_ai
      ⟨3, fun _ _ => none, fun _ => (false, "", ""), ""⟩).2.logs = [] ∧
    (execute_recursive_ai
      ⟨3, fun _ _ => none, fun _ => (false, "", ""), ""⟩).2.learning_applied = false ∧
    (execute_recursive_ai
      ⟨3, fun _ _ => none, fun _ => (false, "", ""), ""⟩).1.currentAttempt = 1 :=
  c3_generation_failed_no_execution _ (by decide) (Or.inl rfl)

/-- The local `all_attempts` list and the session `execution_logs` list
receive exactly the same appends throughout the loop. -/
theorem loopFrom_logs_eq (cfg : RunConfig) :
    ∀ (rem idx : Nat) (st : RunState), st.allAttempts = st.executionLogs →
      (loopFrom cfg rem idx st).allAttempts =
      (loopFrom cfg rem idx st).executionLogs := by
  intro rem
  induction rem with
  | zero =>
    intro idx st h
    simpa [loopFrom] using h
  | succ n ih =>
    intro idx st h
    unfold loopFrom
    cases hg : cfg.gen (idx + 1) st.allAttempts with
    | none => simpa using h
    | some code =>
      by_cases hc : code = ""
      · simpa [hc] using h
      · by_cases hx : (cfg.ex code).1
        · simp [hc, hx, stepState]
          rw [h]
        · simp only [hc, hx, if_neg, if_false]
          exact ih (idx + 1) (stepState cfg idx st code) (by simp [stepState]; rw [h])

/-- Claim C9: in the recorded history entry, `learning_applied` is true
exactly when more than one attempt record (completed execution) was
produced — `attempts_used` in the sense of the spec's count of attempt
records, which equals the length of the entry's `logs`. -/
theorem c9_learning_applied_iff_multiple_records (cfg : RunConfig) :
    (execute_recursive_ai cfg).2.learning_applied = true ↔
    1 < (execute_recursive_ai cfg).2.logs.length := by
  have h := loopFrom_logs_eq cfg cfg.maxAttempts 0 (initRunState cfg) rfl
  unfold execute_recursive_ai historyEntryOf runLoop
  rw [← h]
  simp

/-- Witness for claim C9 at a concrete two-attempt run. -/
theorem c9_learning_applied_iff_multiple_records_witness :
    (execute_recursive_ai
      ⟨2, fun _ _ => some "pass", fun _ => (false, "", "boom"), ""⟩).2.learning_applied =
      true ↔
    1 < (execute_recursive_ai
      ⟨2, fun _ _ => some "pass", fun _ => (false, "", "boom"), ""⟩).2.logs.length :=
  c9_learning_applied_iff_multiple_records _

/-- The history entry's separate `attempts` counter records the started
attempt, so it exceeds the number of attempt records by one when the
backend fails mid-run: here attempt 1 executed and failed, generation
failed on attempt 2, and the entry shows `attempts = 2` over a single
record with `learning_applied = false`. -/
theorem history_attempts_counter_vs_records_on_midrun_genfail :
    (execute_recursive_ai
      ⟨2, fun n _ => if n = 1 then some "x" else none,
        fun _ => (false, "", "boom"), ""⟩).2.attempts = 2 ∧
    (execute_recursive_ai
      ⟨2, fun n _ => if n = 1 then some "x" else none,
        fun _ => (false, "", "boom"), ""⟩).2.logs.length = 1 ∧
    (execute_recursive_ai
      ⟨2, fun n _ => if n = 1 then some "x" else none,
        fun _ => (false, "", "boom"), ""⟩).2.learning_applied = false := by
  decide

/-- Claim C10: on every non-empty attempt history — in particular one
where every attempt succeeded — the learning context is non-empty, starts
with the fixed learning header, and contains the improvement-strategies
header. -/
theorem c10_learning_context_header_and_strategies (h : List AttemptRec)
    (hne : h ≠ []) :
    build_learning_context h ≠ "" ∧
    (∃ rest, build_learning_context h = learnHeader ++ rest) ∧
    (∃ pre post, build_learning_context h = pre ++ improveHeader ++ post) := by
  have hie : h.isEmpty = false := by
    cases h
    · exact absurd rfl hne
    · rfl
  unfold build_learning_context
  simp only [hie, Bool.false_eq_true, if_false]
  refine ⟨?_, ?_, ?_⟩
  · intro heq
    have h2 := congrArg String.data heq
    rw [strAppendData, strAppendData] at h2
    rcases List.append_eq_nil.mp h2 with ⟨h3, -⟩
    rcases List.append_eq_nil.mp h3 with ⟨h4, -⟩
    exact absurd h4 (by decide)
  · exact ⟨_, strAppendAssoc _ _ _⟩
  · refine ⟨learnHeader ++ patternsBlock (collectPatterns h 0 []),
      strategyHints (collectPatterns h 0 []), ?_⟩
    unfold strategiesBlock
    exact (strAppendAssoc _ _ _).symm

/-- Witness for claim C10 at a one-element, all-successful history. -/
theorem c10_learning_context_header_and_strategies_witness :
    build_learning_context [⟨true, ""⟩] ≠ "" ∧
    (∃ rest, build_learning_context [⟨true, ""⟩] = learnHeader ++ rest) ∧
    (∃ pre post, build_learning_context [⟨true, ""⟩] = pre ++ improveHeader ++ post) :=
  c10_learning_context_header_and_strategies [⟨true, ""⟩] (by simp)
